import Mathlib

/-!
Verification development for the IPTV-Check stream validation engine
(`iptv_check.py`).  The definitions below are shallow embeddings of the
program's pure core: string helpers, the M3U playlist writer and the
regex-based playlist reader, the per-task result classification of the
GUI and CLI front ends, the OCR screen analysis, the forced-kill path,
the journal promotion logic and small transition systems for the two
worker-pool realizations.  Theorems about the frozen specification
claims follow the definitions.
-/

set_option maxRecDepth 4000

/-! ### Python-style string helpers -/

/-- ASCII lowering of one character, modelling Python `str.lower` on the
ASCII range (all string constants compared by the program are ASCII). -/
def lowerChar (c : Char) : Char := c.toLower

/-- Python `s.lower()` (ASCII fragment). -/
def lowerStr (s : String) : String := String.mk (s.data.map lowerChar)

/-- Whether `n` occurs at the head of `h` (helper for substring search). -/
def startsWithChars : List Char → List Char → Bool
  | [], _ => true
  | _ :: _, [] => false
  | a :: as, b :: bs => a == b && startsWithChars as bs

/-- Whether `n` occurs inside `h` as a contiguous run. -/
def subOf (n : List Char) : List Char → Bool
  | [] => n.isEmpty
  | c :: t => startsWithChars n (c :: t) || subOf n t

/-- Python `needle in hay` on strings (contiguous substring test). -/
def pyIn (needle hay : String) : Bool := subOf needle.data hay.data

/-- ASCII whitespace, modelling Python's `\s` class / `str.strip` set. -/
def isSpaceChar (c : Char) : Bool :=
  c == ' ' || c == '\t' || c == '\n' || c == '\r' || c == '\x0b' || c == '\x0c'

/-- Python `str.strip()` on a character list. -/
def stripChars (l : List Char) : List Char :=
  ((l.dropWhile isSpaceChar).reverse.dropWhile isSpaceChar).reverse

/-- Python `s.strip()`. -/
def stripStr (s : String) : String := String.mk (stripChars s.data)

/-! ### Constants of `iptv_check.py` (lines 49-56) -/

/-- `MIN_FILE_SIZE_BYTES = 100` -/
def MIN_FILE_SIZE_BYTES : Nat := 100

/-- `WORKER_PROCESS_TIMEOUT_SECONDS = 30` -/
def WORKER_PROCESS_TIMEOUT_SECONDS : Nat := 30

/-- `UNCHECKABLE_URL_LENGTH_THRESHOLD = 250` -/
def UNCHECKABLE_URL_LENGTH_THRESHOLD : Nat := 250

/-- `UNCHECKABLE_KEYWORDS = ['token', 'auth', 'login', 'key', 'signature']` -/
def UNCHECKABLE_KEYWORDS : List String :=
  [ "token", "auth", "login", "key", "signature"]

/-! ### StreamRecord records and the M3U writer (`parse_m3u`, `write_m3u_header`,
`write_m3u_entry`, lines 308-330) -/

/-- One playlist record as produced by `parse_m3u`:
`{'title': ..., 'url': ..., 'group': ...}`. -/
structure StreamRecord where
  title : String
  url : String
  group : String
deriving DecidableEq

/-- Text written by `write_m3u_header`: `"#EXTM3U\n\n"`. -/
def m3uHeaderText : String := "#EXTM3U\n\n"

/-- Text written by `write_m3u_entry` for one record:
`f"#EXTINF:-1 group-title=\"{group}\",{title}\n{url}\n\n"`. -/
def writeM3uEntryText (s : StreamRecord) : String :=
  "#EXTINF:-1 group-title=\"" ++ s.group ++ "\"," ++ s.title ++ "\n" ++ s.url ++ "\n\n"

/-- Concatenation of the entry texts of a record list, one appended
after the other exactly as the journal writes them. -/
def entriesText : List StreamRecord → String
  | [] => ""
  | r :: rs => writeM3uEntryText r ++ entriesText rs

/-- The full text of a journal/output file produced by the engine's own
writer: header followed by one entry block per record. -/
def writePlaylist (rs : List StreamRecord) : String :=
  m3uHeaderText ++ entriesText rs

/-! ### The playlist reader `parse_m3u` (lines 308-322).

`parse_m3u` scans its input with the regex
`#EXTINF:-1.*?group-title="([^"]*)"[^,]*?,([^\n]+)\n(?:#EXT[^\n]+\n)*(https?://[^\s]+)`
(IGNORECASE) and, when that finds nothing, falls back to
`#EXTINF:-1.*?,([^\n]+)\n(?:#EXT[^\n]+\n)*(https?://[^\s]+)` (case
sensitive).  The matcher below implements exactly these two patterns with
Python's leftmost, non-overlapping `findall` semantics.  Each quantifier
whose expansion is forced (a negated character class followed by the
excluded character) is implemented as a split at the first occurrence;
the two genuinely backtracking points — the lazy gap before
`group-title="` resp. before `,`, and the greedy `(?:#EXT[^\n]+\n)*`
group — are implemented with explicit retry. -/

/-- Case-insensitive character comparison used by the IGNORECASE pattern. -/
def ciEq (a b : Char) : Bool := a.toLower == b.toLower

/-- Match a literal at the head of the input, case-insensitively when
`ci` is set; returns the rest of the input after the literal. -/
def matchLit (ci : Bool) : List Char → List Char → Option (List Char)
  | [], s => some s
  | _ :: _, [] => none
  | p :: ps, c :: cs =>
    if (if ci then ciEq p c else p == c) then matchLit ci ps cs else none

/-- Split the input just after the first occurrence of `c`, returning the
part before it and the part after it.  This is the forced expansion of
both `[^c]*?c` and `([^c]*)c`. -/
def splitAtChar (c : Char) : List Char → Option (List Char × List Char)
  | [] => none
  | x :: xs =>
    if x == c then some ([], xs)
    else (splitAtChar c xs).map (fun p => (x :: p.1, p.2))

/-- Match `https?://[^\s]+` at the head of the input; returns the captured
URL text and the rest.  The optional `s` is tried greedily first. -/
def matchUrl (ci : Bool) (s : List Char) : Option (List Char × List Char) :=
  let step : Nat → Option (List Char × List Char) := fun n =>
    (matchLit ci ( "https://".data.take n) s).map (fun r => (s.take n, r))
  let scheme := match step 8 with
    | some r => some r
    | none => (matchLit ci ( "http://".data) s).map (fun r => (s.take 7, r))
  match scheme with
  | none => none
  | some (sch, r) =>
    let body := r.takeWhile (fun c => !(isSpaceChar c))
    if body.isEmpty then none
    else some (sch ++ body, r.drop body.length)

/-- Match `(?:#EXT[^\n]+\n)*(https?://[^\s]+)` at the head of the input,
with the star group greedy: each extension line is consumed first and the
URL is retried at the current position if the deeper attempt fails. -/
def extStarUrl (ci : Bool) : Nat → List Char → Option (List Char × List Char)
  | 0, _ => none
  | fuel + 1, s =>
    let deeper : Option (List Char × List Char) :=
      match matchLit ci ( "#EXT".data) s with
      | none => none
      | some r1 =>
        match splitAtChar '\n' r1 with
        | none => none
        | some (line, rest) =>
          if line.isEmpty then none else extStarUrl ci fuel rest
    match deeper with
    | some res => some res
    | none => matchUrl ci s

/-- Continuation of pattern 1 after `group-title="`:
`([^"]*)"[^,]*?,([^\n]+)\n(?:#EXT[^\n]+\n)*(https?://[^\s]+)`. -/
def p1Cont (s : List Char) : Option (List Char × List Char × List Char × List Char) :=
  match splitAtChar '"' s with
  | none => none
  | some (g, r1) =>
    match splitAtChar ',' r1 with
    | none => none
    | some (_, r2) =>
      match splitAtChar '\n' r2 with
      | none => none
      | some (t, r3) =>
        if t.isEmpty then none
        else
          match extStarUrl true (r3.length + 1) r3 with
          | none => none
          | some (u, rest) => some (g, t, u, rest)

/-- The lazy gap `.*?group-title="` of pattern 1 together with its
continuation: scan forward without crossing a newline, try the literal at
every position, and on continuation failure resume the scan one character
further (Python's backtracking of a lazy dot-star). -/
def lazyGT : List Char → Option (List Char × List Char × List Char × List Char)
  | [] => none
  | c :: cs =>
    match matchLit true ( "group-title=\"".data) (c :: cs) with
    | some r =>
      match p1Cont r with
      | some res => some res
      | none => if c == '\n' then none else lazyGT cs
    | none => if c == '\n' then none else lazyGT cs

/-- Try pattern 1 anchored at the head of the input. -/
def tryP1At (s : List Char) : Option (List Char × List Char × List Char × List Char) :=
  match matchLit true ( "#EXTINF:-1".data) s with
  | none => none
  | some r0 => lazyGT r0

/-- Continuation of pattern 2 after its comma:
`([^\n]+)\n(?:#EXT[^\n]+\n)*(https?://[^\s]+)` (case sensitive). -/
def p2Cont (s : List Char) : Option (List Char × List Char × List Char) :=
  match splitAtChar '\n' s with
  | none => none
  | some (t, r1) =>
    if t.isEmpty then none
    else
      match extStarUrl false (r1.length + 1) r1 with
      | none => none
      | some (u, rest) => some (t, u, rest)

/-- The lazy gap `.*?,` of pattern 2 with its continuation: scan to the
next comma without crossing a newline, retrying later commas when the
continuation fails (the lazy dot-star may consume a comma on retry). -/
def lazyComma : List Char → Option (List Char × List Char × List Char)
  | [] => none
  | c :: cs =>
    if c == ',' then
      match p2Cont cs with
      | some res => some res
      | none => lazyComma cs
    else if c == '\n' then none
    else lazyComma cs

/-- Try pattern 2 anchored at the head of the input. -/
def tryP2At (s : List Char) : Option (List Char × List Char × List Char) :=
  match matchLit false ( "#EXTINF:-1".data) s with
  | none => none
  | some r0 => lazyComma r0

/-- `findall` for pattern 1: leftmost, non-overlapping matches. -/
def findAllP1 : Nat → List Char → List (List Char × List Char × List Char)
  | 0, _ => []
  | fuel + 1, s =>
    match s with
    | [] => []
    | c :: cs =>
      match tryP1At (c :: cs) with
      | some (g, t, u, rest) => (g, t, u) :: findAllP1 fuel rest
      | none => findAllP1 fuel cs

/-- `findall` for pattern 2: leftmost, non-overlapping matches. -/
def findAllP2 : Nat → List Char → List (List Char × List Char)
  | 0, _ => []
  | fuel + 1, s =>
    match s with
    | [] => []
    | c :: cs =>
      match tryP2At (c :: cs) with
      | some (t, u, rest) => (t, u) :: findAllP2 fuel rest
      | none => findAllP2 fuel cs

/-- `parse_m3u` (lines 308-322): try the group-title pattern first; when
it finds nothing fall back to the plain pattern with group `'General'`;
strip every captured field and replace an empty group by `'General'`. -/
def parse_m3u (content : String) : List StreamRecord :=
  let cs := content.data
  let ms1 := findAllP1 cs.length cs
  if ms1.isEmpty then
    (findAllP2 cs.length cs).map (fun p =>
      { title := stripStr (String.mk p.1), url := stripStr (String.mk p.2),
        group := "General" })
  else
    ms1.map (fun p =>
      let gs := stripStr (String.mk p.1)
      { title := stripStr (String.mk p.2.1), url := stripStr (String.mk p.2.2),
        group := if gs = "" then "General" else gs })

/-! ### OCR screen analysis (`CheckerBase._perform_ocr_check`, lines 633-649) -/

/-- The error-page keywords scanned for in the recognized text
(line 640). -/
def OCR_ERROR_KEYWORDS : List String :=
  [ "error", "login", "failed", "access denied", "unavailable", "not found"]

/-- Environment of one `_perform_ocr_check` run.  `extractRaises` models
the frame-extraction call raising (extraction timeout, missing tool);
`imageMissing` models a silently failed extraction, leaving no/an empty
frame file; `recogRaises` models `pytesseract`/`PIL` raising (corrupt
frame, missing OCR tool); `text raw` models successful recognition
returning `raw`. -/
inductive OcrEnv where
  | extractRaises : OcrEnv
  | imageMissing : OcrEnv
  | recogRaises : OcrEnv
  | text : String → OcrEnv
deriving DecidableEq

/-- Whether the lower-cased recognized text contains a known error
keyword (line 640: `any(keyword in text for keyword in [...])`). -/
def ocrKeywordHit (raw : String) : Bool :=
  OCR_ERROR_KEYWORDS.any (fun k => pyIn k (lowerStr raw))

/-- `_perform_ocr_check` (lines 633-649): keyword in the lower-cased text
⇒ `"OFF (OCR: Error Screen)"`; recognized text without keyword, or a
missing/empty frame image ⇒ `"ON"`; any exception in the extraction or
recognition step ⇒ `"ON (OCR Failed)"`. -/
def performOcrCheck : OcrEnv → String
  | OcrEnv.extractRaises => "ON (OCR Failed)"
  | OcrEnv.imageMissing => "ON"
  | OcrEnv.recogRaises => "ON (OCR Failed)"
  | OcrEnv.text raw =>
    if ocrKeywordHit raw then "OFF (OCR: Error Screen)" else "ON"

/-! ### Forced termination (`CheckerBase._force_kill_worker`, lines 651-662) -/

/-- Observable actions of the forced-kill path.  `sigtermGroup` is never
produced by the code; it exists so the specification's graceful-first
escalation can be expressed and compared against the code. -/
inductive KillAct where
  | sigtermGroup : KillAct
  | sigkillGroup : KillAct
  | taskkillTree : KillAct
  | waitReap : Nat → KillAct
  | rmTemp : String → KillAct
deriving DecidableEq

/-- Whether an action delivers a termination signal to the worker. -/
def isSignalAct : KillAct → Bool
  | KillAct.sigtermGroup => true
  | KillAct.sigkillGroup => true
  | KillAct.taskkillTree => true
  | _ => false

/-- `_force_kill_worker` (lines 651-662): on POSIX `os.killpg(...,
signal.SIGKILL)` on the process group, otherwise `taskkill /F /T`; then
`proc.wait(timeout=2)`; finally the temporary artifact is removed when
one is recorded and exists (`temp` carries its path in that case). -/
def forceKillWorker (posix : Bool) (temp : Option String) : List KillAct :=
  (if posix then [KillAct.sigkillGroup] else [KillAct.taskkillTree])
    ++ [KillAct.waitReap 2]
    ++ (match temp with
        | some p => [KillAct.rmTemp p]
        | none => [])

/-- The first termination signal an action list delivers. -/
def firstSignal (acts : List KillAct) : Option KillAct :=
  acts.find? isSignalAct

/-- Modelled from the spec: the claimed escalation shape — a graceful
termination signal to the process group is delivered before any
stronger kill.  Stated on action lists so it can be compared with what
`_force_kill_worker` actually does. -/
def specGracefulEscalation (acts : List KillAct) : Prop :=
  firstSignal acts = some KillAct.sigtermGroup

/-! ### Scheduling tick of the GUI monitor
(`AppGUI._monitor_workers`, lines 1197-1226) -/

/-- Decision taken by `_monitor_workers` for one active worker on one
tick (lines 1203-1211): an exited process is classified; a process whose
elapsed wall-clock time exceeds `WORKER_PROCESS_TIMEOUT_SECONDS` is
force-killed and retired as a timeout failure; anything else is kept. -/
inductive TickDecision where
  | classifyResult : TickDecision
  | timeoutKill : TickDecision
  | keep : TickDecision
deriving DecidableEq

/-- The per-worker decision of `_monitor_workers`: `poll()` result first,
then the elapsed-time ceiling. -/
def monitorDecide (exited : Bool) (now startTime : Nat) : TickDecision :=
  if exited then TickDecision.classifyResult
  else if now - startTime > WORKER_PROCESS_TIMEOUT_SECONDS then TickDecision.timeoutKill
  else TickDecision.keep

/-- The failure reason passed to `_handle_worker_failure` on the timeout
path (line 1210). -/
def timeoutReason : String := "(Timeout)"

/-! ### Result classification -/

/-- The data recorded for an active worker when it is scheduled
(line 1310). -/
structure TaskData where
  pid : Nat
  streamInfo : StreamRecord
  tempFile : Option String
  startTime : Nat
  checkType : String
  probeType : String
  checkId : Nat
deriving DecidableEq

/-- Outcome of one external probe process as observed by the result
handler: its exit status, whether the captured artifact exists with at
least `MIN_FILE_SIZE_BYTES` bytes, the OCR environment used if OCR runs,
and whether reading the process's output raised. -/
structure ProcOutcome where
  returncode : Int
  artifactOk : Bool
  ocrEnv : OcrEnv
  commRaised : Bool
deriving DecidableEq

/-- Detailed status computed by `AppGUI._process_result`
(lines 1332-1350): for an `ffprobe` probe, exit 0 ⇒ `"ON"`, otherwise
`"OFF (Probe Error)"`; for an `ffmpeg` capture, exit 0 with a
large-enough artifact hands off to OCR when requested for video,
otherwise `"ON"`; a failed capture is `"OFF (Capture Error)"`; an
exception while collecting the result is `"OFF (Processing Error)"`. -/
def guiDetailedStatus (d : TaskData) (useOcr : Bool) (out : ProcOutcome) : String :=
  if out.commRaised then "OFF (Processing Error)"
  else if d.probeType = "ffprobe" then
    (if out.returncode = 0 then "ON" else "OFF (Probe Error)")
  else
    (if out.returncode = 0 && out.artifactOk then
      (if d.checkType = "video" && useOcr then performOcrCheck out.ocrEnv else "ON")
    else "OFF (Capture Error)")

/-- Detailed status computed by `AppCLI._execute_check`
(lines 1517-1552): a timeout of `communicate` kills the direct process
and yields `"OFF (Timeout)"`; any other exception `"OFF (Execution
Error)"`; exit 0 on the capture path with a good artifact hands off to
OCR; exit 0 on the metadata path is `"ON"`; everything else keeps the
initial `"OFF"`. -/
def cliDetailedStatus (useFfmpeg timedOut execRaised : Bool) (rc : Int)
    (artifactOk : Bool) (env : OcrEnv) : String :=
  if timedOut then "OFF (Timeout)"
  else if execRaised then "OFF (Execution Error)"
  else if rc = 0 then
    (if useFfmpeg then
      (if artifactOk then performOcrCheck env else "OFF")
    else "ON")
  else "OFF"

/-- The "hard to recheck" test applied to an offline record's URL
(lines 1364 / 1573): longer than `UNCHECKABLE_URL_LENGTH_THRESHOLD`, or
its lower-cased form contains an authentication-looking keyword. -/
def uncheckableCond (url : String) : Bool :=
  decide (url.length > UNCHECKABLE_URL_LENGTH_THRESHOLD)
    || UNCHECKABLE_KEYWORDS.any (fun kw => pyIn kw (lowerStr url))

/-- `stream_info['group'] = 'Radios'` rewriting applied to an online
audio record before journaling (lines 1359 / 1567). -/
def radioAdjust (rec : StreamRecord) (checkType : String) : StreamRecord :=
  if checkType = "audio" then { rec with group := "Radios" } else rec

/-! ### GUI session state and its callbacks -/

/-- Session state of the GUI checker that the classification callbacks
touch: the current check id (`None` after a stop), the three counters,
the flushed journal and uncheckable entries (in flush order), the pids
of the active process set, and the existing temporary artifacts. -/
structure GuiSession where
  currentCheckId : Option Nat
  processedCount : Nat
  onlineCount : Nat
  uncheckableCount : Nat
  journal : List StreamRecord
  uncheckable : List StreamRecord
  activePids : List Nat
  tempFiles : List String
deriving DecidableEq

/-- Removal of a task's temporary artifact when one is recorded
(`os.remove(temp_file)` guarded by existence). -/
def removeTempFile (fs : List String) : Option String → List String
  | some p => fs.filter (fun q => q ≠ p)
  | none => fs

/-- `AppGUI._process_result` (lines 1319-1374) as a state transformer.
A stale check id only removes the task's temporary artifact; a current
one classifies, bumps `processed_count`, journals an online entry (after
the audio group rewrite) or routes a hard-to-recheck offline entry to
the uncheckable file, and removes the temporary artifact. -/
def guiProcessResult (s : GuiSession) (d : TaskData) (useOcr : Bool)
    (out : ProcOutcome) : GuiSession :=
  if some d.checkId ≠ s.currentCheckId then
    { s with tempFiles := removeTempFile s.tempFiles d.tempFile }
  else
    let st := guiDetailedStatus d useOcr out
    let s1 := { s with processedCount := s.processedCount + 1 }
    let s2 :=
      if pyIn "ON" st then
        { s1 with onlineCount := s1.onlineCount + 1,
                  journal := s1.journal ++ [radioAdjust d.streamInfo d.checkType] }
      else if uncheckableCond d.streamInfo.url then
        { s1 with uncheckable := s1.uncheckable ++ [d.streamInfo],
                  uncheckableCount := s1.uncheckableCount + 1 }
      else s1
    { s2 with tempFiles := removeTempFile s2.tempFiles d.tempFile }

/-- `AppGUI._handle_worker_failure` (lines 1228-1240) as a state
transformer: a stale check id is dropped entirely; a current one only
bumps `processed_count` (the rest of the handler is logging). -/
def guiHandleWorkerFailure (s : GuiSession) (_info : StreamRecord)
    (_reason : String) (checkId : Nat) : GuiSession :=
  if some checkId ≠ s.currentCheckId then s
  else { s with processedCount := s.processedCount + 1 }

/-- `AppGUI._schedule_process` (lines 1285-1310) as a state transformer:
a stale check id is dropped before any process or artifact is created; a
current one launches the probe and records it in the active set. -/
def guiScheduleProcess (s : GuiSession) (_info : StreamRecord) (checkId pid : Nat)
    (tempFile : Option String) : GuiSession :=
  if some checkId ≠ s.currentCheckId then s
  else
    { s with activePids := s.activePids ++ [pid],
             tempFiles := match tempFile with
               | some p => s.tempFiles ++ [p]
               | none => s.tempFiles }

/-! ### Journal promotion (`AppGUI.stop_processing`, lines 1139-1196;
`AppCLI._finalize_check`, lines 1577-1606) -/

/-- Byte size of the staging (`.part`) file after the header and a list
of entries have been written through the `utf-8-sig` handle: a 3-byte
BOM, the header, then each formatted entry. -/
def partFileSize (entries : List StreamRecord) : Nat :=
  3 + m3uHeaderText.utf8ByteSize
    + (entries.map (fun e => (writeM3uEntryText e).utf8ByteSize)).sum

/-- Contents of the staging file: header plus the flushed entries. -/
def partFileContent (entries : List StreamRecord) : String :=
  m3uHeaderText ++ entriesText entries

/-- Recheck-mode promotion shared by `AppGUI.stop_processing`
(lines 1159-1166) and `AppCLI._finalize_check` (lines 1585-1592): when
the staging file holds more than 15 bytes it replaces the output file
wholesale; otherwise both the output file and the staging file are
removed.  The result is `(output file contents, staging file contents)`
afterwards, `none` meaning the file does not exist. -/
def promoteRecheck (entries : List StreamRecord) (_prevOutput : Option String) :
    Option String × Option String :=
  if partFileSize entries > 15 then (some (partFileContent entries), none)
  else (none, none)

/-- Fresh-mode promotion (GUI lines 1167-1184, CLI lines 1593-1603):
when the staging file holds more than 15 bytes its contents (header
stripped) are appended to the output file, whose header is created if it
was missing or empty; the staging file is then removed in all cases. -/
def promoteFresh (entries : List StreamRecord) (prevOutput : Option String) :
    Option String × Option String :=
  if partFileSize entries > 15 then
    let headerNeeded : Bool := match prevOutput with
      | none => true
      | some c => decide (c.utf8ByteSize = 0)
    let base := match prevOutput with
      | none => ""
      | some c => c
    let stripped := entriesText entries
    (some ((if headerNeeded then base ++ m3uHeaderText else base) ++ stripped), none)
  else (prevOutput, none)

/-! ### Session start (`AppGUI._start_check_internal`, lines 1129-1131;
`AppCLI.run`, lines 1420-1423) -/

/-- The fixed relative path of the uncheckable file
(`uncheckable_file_path = "uncheckable.m3u"`, lines 1129 / 1420). -/
def uncheckableFilePath : String := "uncheckable.m3u"

/-- A file-open request: target path and whether the mode truncates. -/
structure OpenSpec where
  path : String
  truncating : Bool
deriving DecidableEq

/-- The two files opened by `AppGUI._start_check_internal` (lines
1129-1130): the staging journal at `output_path + ".part"` and the
uncheckable file at the fixed relative path, both in mode `"w"`. -/
def guiStartOpens (outputPath : String) : OpenSpec × OpenSpec :=
  ({ path := outputPath ++ ".part", truncating := true },
   { path := uncheckableFilePath, truncating := true })

/-- The two files opened by `AppCLI.run` (lines 1420-1422), identical in
shape to the GUI ones. -/
def cliStartOpens (outputPath : String) : OpenSpec × OpenSpec :=
  ({ path := outputPath ++ ".part", truncating := true },
   { path := uncheckableFilePath, truncating := true })

/-- A flat file system: contents by path, `none` when absent. -/
def FileSys : Type := String → Option String

/-- Opening a file for writing (mode `"w"`) truncates it; writing the
header then leaves exactly the header inside. -/
def fsOpenWriteHeader (fs : FileSys) (p : String) : FileSys :=
  fun q => if q = p then some m3uHeaderText else fs q

/-- File system produced by the session-start sequence of either front
end: open staging and uncheckable files in truncating mode and write the
header into each (lines 1129-1131 / 1420-1423). -/
def afterSessionStart (fs : FileSys) (opens : OpenSpec × OpenSpec) : FileSys :=
  fsOpenWriteHeader (fsOpenWriteHeader fs opens.1.path) opens.2.path

/-! ### The GUI tick-based worker pool as a transition system
(`AppGUI._monitor_workers` lines 1197-1226, `_launch_worker` lines
1242-1283, `_schedule_process` lines 1285-1310).

Admission happens on a scheduling tick: when the active process set is
below `maxWorkers`, the head of the pending queue is popped and handed
to a preparation thread (`_launch_worker`).  The preparation thread
classifies the stream (possibly probing it, which can take many ticks)
and then posts `_schedule_process`, which adds the new process to the
active set without re-checking capacity. -/

/-- Scheduler-visible state of a GUI check: the pending queue
(`streams_to_check`), the set of tasks handed to a preparation thread
but not yet scheduled, the active process set (`active_processes`), and
the configured worker bound. -/
structure GuiPoolState where
  pending : List Nat
  preparing : List Nat
  active : List Nat
  maxWorkers : Nat
deriving DecidableEq

/-- One step of the GUI scheduling loop. -/
inductive GuiPoolStep : GuiPoolState → GuiPoolState → Prop where
  | pickPending (s : GuiPoolState) (t : Nat) (ts : List Nat) :
      s.pending = t :: ts →
      s.active.length < s.maxWorkers →
      GuiPoolStep s { s with pending := ts, preparing := s.preparing ++ [t] }
  | prepDone (s : GuiPoolState) (t : Nat) (pre post : List Nat) :
      s.preparing = pre ++ t :: post →
      GuiPoolStep s { s with preparing := pre ++ post, active := s.active ++ [t] }
  | retire (s : GuiPoolState) (t : Nat) (pre post : List Nat) :
      s.active = pre ++ t :: post →
      GuiPoolStep s { s with active := pre ++ post }

/-- Reachability in the GUI scheduling loop. -/
inductive GuiPoolReach (init : GuiPoolState) : GuiPoolState → Prop where
  | refl : GuiPoolReach init init
  | tail (a b : GuiPoolState) : GuiPoolReach init a → GuiPoolStep a b →
      GuiPoolReach init b

/-- Initial state of a GUI check over a task list with a worker bound. -/
def guiPoolInit (tasks : List Nat) (w : Nat) : GuiPoolState :=
  { pending := tasks, preparing := [], active := [], maxWorkers := w }

/-! ### The CLI fixed worker-thread pool as a transition system
(`AppCLI.run` lines 1428-1442, `_worker` lines 1480-1493).

`run` starts exactly `args.workers` threads; each thread repeatedly pops
one stream from the shared queue under the lock and blocks on its own
external process until it finishes, so each thread owns at most one
in-flight process at a time. -/

/-- State of the CLI pool: the shared queue, one slot per worker thread
holding the task whose process it is currently blocked on, and the
running flag. -/
structure CliPoolState where
  queue : List Nat
  workers : List (Option Nat)
  isRunning : Bool
deriving DecidableEq

/-- Number of in-flight external processes: busy worker slots. -/
def cliActiveCount (s : CliPoolState) : Nat :=
  (s.workers.filter Option.isSome).length

/-- One step of the CLI pool. -/
inductive CliPoolStep : CliPoolState → CliPoolState → Prop where
  | pop (s : CliPoolState) (i : Nat) (t : Nat) (ts : List Nat) :
      s.isRunning = true →
      s.workers.get? i = some none →
      s.queue = t :: ts →
      CliPoolStep s { s with queue := ts, workers := s.workers.set i (some t) }
  | finish (s : CliPoolState) (i : Nat) (t : Nat) :
      s.workers.get? i = some (some t) →
      CliPoolStep s { s with workers := s.workers.set i none }
  | cancel (s : CliPoolState) :
      CliPoolStep s { s with isRunning := false }

/-- Reachability in the CLI pool. -/
inductive CliPoolReach (init : CliPoolState) : CliPoolState → Prop where
  | refl : CliPoolReach init init
  | tail (a b : CliPoolState) : CliPoolReach init a → CliPoolStep a b →
      CliPoolReach init b

/-- Initial CLI pool state: full queue, `w` idle worker threads. -/
def cliPoolInit (tasks : List Nat) (w : Nat) : CliPoolState :=
  { queue := tasks, workers := List.replicate w none, isRunning := true }

/-! ### CLI session result handling and cancellation
(`AppCLI._signal_handler` lines 1446-1449, `_handle_cli_result` lines
1560-1575) -/

/-- CLI session state touched by result handling: running flag,
counters, and the flushed journal and uncheckable entries. -/
structure CliSession where
  isRunning : Bool
  processedCount : Nat
  onlineCount : Nat
  uncheckableCount : Nat
  journal : List StreamRecord
  uncheckable : List StreamRecord
deriving DecidableEq

/-- `AppCLI._signal_handler` (lines 1446-1449): a Ctrl+C during a run
only clears the running flag, stopping the launch of new checks. -/
def cliSignalHandler (s : CliSession) : CliSession :=
  if s.isRunning then { s with isRunning := false } else s

/-- `AppCLI._handle_cli_result` (lines 1560-1575): bump
`processed_count`; an online status journals the (audio-adjusted) entry
and bumps `online_count`; a hard-to-recheck offline entry goes to the
uncheckable file.  The handler consults neither the running flag nor any
check id. -/
def handleCliResult (s : CliSession) (rec : StreamRecord) (detailedStatus checkType : String) :
    CliSession :=
  let s1 := { s with processedCount := s.processedCount + 1 }
  if pyIn "ON" detailedStatus then
    { s1 with onlineCount := s1.onlineCount + 1,
              journal := s1.journal ++ [radioAdjust rec checkType] }
  else if uncheckableCond rec.url then
    { s1 with uncheckable := s1.uncheckable ++ [rec],
              uncheckableCount := s1.uncheckableCount + 1 }
  else s1

/-- `AppGUI.stop_processing` head (lines 1139-1141): clear the running
flag and the current check id, so later callbacks are stale. -/
def guiStopInvalidate (s : GuiSession) : GuiSession :=
  { s with currentCheckId := none }

/-! ### Well-formedness of records for the writer/reader round trip -/

/-- A record whose written entry block is recoverable by `parse_m3u`:
the URL carries a lower-case `http`/`https` scheme, is non-empty past
the scheme and free of whitespace; the title is non-empty and free of
newlines; the group is free of double quotes. -/
def goodRecordB (r : StreamRecord) : Bool :=
  ((startsWithChars ( "http://".data) r.url.data && decide (7 < r.url.data.length))
    || (startsWithChars ( "https://".data) r.url.data && decide (8 < r.url.data.length)))
  && r.url.data.all (fun c => !isSpaceChar c)
  && !r.title.data.isEmpty
  && r.title.data.all (fun c => !(c == '\n'))
  && r.group.data.all (fun c => !(c == '"'))

/-- Propositional form of `goodRecordB`. -/
def GoodRecord (r : StreamRecord) : Prop := goodRecordB r = true

/-- Shape of a URL character list that the reader's URL fragment
recovers in full: a lower-case `http`/`https` scheme followed by a
non-empty remainder, with no whitespace anywhere. -/
def UrlShape (u : List Char) : Prop :=
  ((∃ tl, u = ( "http://".data) ++ tl ∧ tl ≠ [])
    ∨ (∃ tl, u = ( "https://".data) ++ tl ∧ tl ≠ []))
  ∧ ∀ c ∈ u, isSpaceChar c = false

/-! ### Shared concrete sample values used to exhibit behaviours -/

/-- A well-formed sample record. -/
def sampleRec1 : StreamRecord :=
  { title := "News", url := "http://example.com/a", group := "TV" }

/-- A second well-formed sample record. -/
def sampleRec2 : StreamRecord :=
  { title := "Music", url := "https://ex.org/b?x=1", group := "" }

/-- A record whose URL has no `http` scheme. -/
def sampleRecNoScheme : StreamRecord :=
  { title := "t", url := "x", group := "g" }

/-- A record with an authentication-looking keyword in its URL. -/
def sampleRecToken : StreamRecord :=
  { title := "Pay", url := "http://cdn.example/stream?Token=abc", group := "TV" }

/-- A CLI session holding one flushed entry, still running. -/
def sampleCliSession : CliSession :=
  { isRunning := true, processedCount := 1, onlineCount := 1,
    uncheckableCount := 0, journal := [sampleRec1], uncheckable := [] }

/-- A GUI session whose current check id is `7`. -/
def sampleGuiSession : GuiSession :=
  { currentCheckId := some 7, processedCount := 3, onlineCount := 2,
    uncheckableCount := 1, journal := [sampleRec1], uncheckable := [sampleRecToken],
    activePids := [11], tempFiles := [ "old.mp4"] }

/-- Task data stamped with the stale check id `3`. -/
def sampleStaleTask : TaskData :=
  { pid := 11, streamInfo := sampleRec2, tempFile := some "old.mp4",
    startTime := 0, checkType := "video", probeType := "ffmpeg", checkId := 3 }

/-- Task data stamped with the current check id `7`, probing with
`ffprobe`. -/
def sampleProbeTask : TaskData :=
  { pid := 12, streamInfo := sampleRecToken, tempFile := none,
    startTime := 0, checkType := "audio", probeType := "ffprobe", checkId := 7 }

/-- A probe outcome with non-zero exit status. -/
def sampleFailOutcome : ProcOutcome :=
  { returncode := 1, artifactOk := false, ocrEnv := OcrEnv.text "", commRaised := false }

/-- The overshoot state reached by the GUI pool with bound 1. -/
def guiOvershootState : GuiPoolState :=
  { pending := [], preparing := [], active := [0, 1], maxWorkers := 1 }

/-! ## Theorems -/

/-! ### C1 — the bounded active set -/

/-- C1: the claimed invariant `|activeTasks| ≤ maxWorkers` fails in the
GUI tick-based realization: with `maxWorkers = 1` and two pending
streams, admission happens under the capacity check one task per tick,
but each admitted task finishes preparation asynchronously and
`_schedule_process` adds it to the active set without re-checking
capacity, so the state with two simultaneously active processes is
reachable. -/
theorem c1_gui_active_set_exceeds_max_workers :
    GuiPoolReach (guiPoolInit [0, 1] 1) guiOvershootState ∧
    guiOvershootState.maxWorkers < guiOvershootState.active.length := by
  constructor
  · have h1 : GuiPoolStep (guiPoolInit [0, 1] 1)
        { pending := [1], preparing := [0], active := [], maxWorkers := 1 } :=
      GuiPoolStep.pickPending _ 0 [1] rfl (by decide)
    have h2 : GuiPoolStep
        { pending := [1], preparing := [0], active := [], maxWorkers := 1 }
        { pending := [], preparing := [0, 1], active := [], maxWorkers := 1 } :=
      GuiPoolStep.pickPending _ 1 [] rfl (by decide)
    have h3 : GuiPoolStep
        { pending := [], preparing := [0, 1], active := [], maxWorkers := 1 }
        { pending := [], preparing := [1], active := [0], maxWorkers := 1 } :=
      GuiPoolStep.prepDone _ 0 [] [1] rfl
    have h4 : GuiPoolStep
        { pending := [], preparing := [1], active := [0], maxWorkers := 1 }
        guiOvershootState :=
      GuiPoolStep.prepDone _ 1 [] [] rfl
    exact GuiPoolReach.tail _ _
      (GuiPoolReach.tail _ _
        (GuiPoolReach.tail _ _
          (GuiPoolReach.tail _ _ GuiPoolReach.refl h1) h2) h3) h4
  · decide

/-! ### C2 — timeout retirement and the forced kill -/

/-- C2 counterexample: `_force_kill_worker` never delivers a graceful
termination signal before the stronger kill — on POSIX its very first
signal is already `SIGKILL` to the process group, so the claimed
escalation (termination signal, brief wait, stronger kill if still
alive) does not describe the code. -/
theorem c2_kill_escalation_counterexample :
    forceKillWorker true (some "cap.mp4") =
      [KillAct.sigkillGroup, KillAct.waitReap 2, KillAct.rmTemp "cap.mp4"] ∧
    firstSignal (forceKillWorker true (some "cap.mp4")) = some KillAct.sigkillGroup ∧
    (firstSignal (forceKillWorker true (some "cap.mp4")) == some KillAct.sigtermGroup) = false := by
  decide

/-- C2 amended: a task whose elapsed wall-clock time exceeds the
per-task ceiling is retired with the `(Timeout)` outcome, its entire
process group is killed outright with `SIGKILL` (no preliminary graceful
signal), the worker is reaped with a 2-second wait, and a recorded
temporary artifact is deleted on this path. -/
theorem c2_timeout_retirement_amended :
    ∀ (now startTime : Nat) (temp : Option String),
      now - startTime > WORKER_PROCESS_TIMEOUT_SECONDS →
      monitorDecide false now startTime = TickDecision.timeoutKill ∧
      timeoutReason = "(Timeout)" ∧
      forceKillWorker true temp =
        KillAct.sigkillGroup :: KillAct.waitReap 2 ::
          (match temp with | some p => [KillAct.rmTemp p] | none => []) ∧
      firstSignal (forceKillWorker true temp) = some KillAct.sigkillGroup := by
  intro now startTime temp h
  refine ⟨?_, rfl, rfl, ?_⟩
  · simp [monitorDecide, h]
  · simp [forceKillWorker, firstSignal, isSignalAct]

/-- C2 witness: the amended statement at a concrete late tick and a
concrete artifact path. -/
theorem c2_timeout_retirement_witness :
    monitorDecide false 100 0 = TickDecision.timeoutKill ∧
    forceKillWorker true (some "a.mp4") =
      [KillAct.sigkillGroup, KillAct.waitReap 2, KillAct.rmTemp "a.mp4"] := by
  have h := c2_timeout_retirement_amended 100 0 (some "a.mp4") (by decide)
  exact ⟨h.1, h.2.2.1⟩

/-! ### C3 — cancellation and the journal -/

/-- C3 counterexample: in the CLI realization a check that is in flight
when Ctrl+C arrives still completes, `_handle_cli_result` journals it
without consulting the cleared running flag, and the promoted output
then contains an entry from a task retired after the cancel signal —
refuting the claim that no such entry appears. -/
theorem c3_cli_post_cancel_entry_counterexample :
    (cliSignalHandler sampleCliSession).isRunning = false ∧
    (handleCliResult (cliSignalHandler sampleCliSession) sampleRec2 "ON" "video").journal
      = [sampleRec1, sampleRec2] ∧
    (promoteRecheck
        (handleCliResult (cliSignalHandler sampleCliSession) sampleRec2 "ON" "video").journal
        none).1
      = some (partFileContent [sampleRec1, sampleRec2]) ∧
    pyIn (writeM3uEntryText sampleRec2) (partFileContent [sampleRec1, sampleRec2]) = true := by
  refine ⟨rfl, rfl, by decide, by decide⟩

/-- C3 amended: flushed entries are never discarded — after a GUI stop
the check id is cleared so a late result callback journals nothing, and
both promotion modes keep every flushed entry; in the CLI realization,
however, cancellation only stops the launch of new checks: a check
retired after the cancel signal is still journaled (and hence promoted),
because `_handle_cli_result` ignores the cleared running flag. -/
theorem c3_cancellation_amended :
    ∀ (s : GuiSession) (d : TaskData) (useOcr : Bool) (out : ProcOutcome)
      (entries : List StreamRecord) (prevContent : String)
      (cs : CliSession) (rec : StreamRecord) (st ct : String),
      (guiStopInvalidate s).currentCheckId = none ∧
      (guiProcessResult (guiStopInvalidate s) d useOcr out).journal = s.journal ∧
      (partFileSize entries > 15 →
        (promoteRecheck entries (some prevContent)).1
          = some (m3uHeaderText ++ entriesText entries)) ∧
      (partFileSize entries > 15 → prevContent.utf8ByteSize ≠ 0 →
        (promoteFresh entries (some prevContent)).1
          = some (prevContent ++ entriesText entries)) ∧
      (cs.isRunning = false → pyIn "ON" st = true →
        (handleCliResult cs rec st ct).journal = cs.journal ++ [radioAdjust rec ct]) := by
  intro s d useOcr out entries prevContent cs rec st ct
  refine ⟨rfl, ?_, ?_, ?_, ?_⟩
  · simp [guiProcessResult, guiStopInvalidate]
  · intro h
    simp [promoteRecheck, h, partFileContent]
  · intro h h2
    simp [promoteFresh, h, h2]
  · intro _ h2
    simp [handleCliResult, h2]

/-- C3 witness: the amended statement at concrete sessions, a concrete
flushed journal and a concrete post-cancel online result. -/
theorem c3_cancellation_witness :
    (guiProcessResult (guiStopInvalidate sampleGuiSession) sampleStaleTask false
        sampleFailOutcome).journal = sampleGuiSession.journal ∧
    (promoteRecheck [sampleRec1] (some "#EXTM3U\n\n")).1
      = some (m3uHeaderText ++ entriesText [sampleRec1]) ∧
    (handleCliResult (cliSignalHandler sampleCliSession) sampleRec2 "ON" "video").journal
      = (cliSignalHandler sampleCliSession).journal ++ [radioAdjust sampleRec2 "video"] := by
  have h := c3_cancellation_amended sampleGuiSession sampleStaleTask false sampleFailOutcome
    [sampleRec1] "#EXTM3U\n\n" (cliSignalHandler sampleCliSession) sampleRec2 "ON" "video"
  exact ⟨h.2.1, h.2.2.1 (by decide), h.2.2.2.2 (by decide) (by decide)⟩

/-! ### C4 — metadata-probe classification -/

/-- C4 counterexample: in the CLI realization a non-zero exit of the
metadata probe yields the plain status `"OFF"`, not the probe-error
classification `"OFF (Probe Error)"` that the GUI produces and the
claim requires for every non-zero exit. -/
theorem c4_cli_probe_error_label_counterexample :
    cliDetailedStatus false false false 1 false (OcrEnv.text "") = "OFF" ∧
    guiDetailedStatus sampleProbeTask false sampleFailOutcome = "OFF (Probe Error)" ∧
    (( "OFF" : String) == "OFF (Probe Error)") = false := by
  decide

/-- C4 amended: on the metadata-probe path both realizations classify a
task `Online` exactly when the probe exits with status zero; on non-zero
exit the GUI produces the probe-error status `"OFF (Probe Error)"` while
the CLI produces the untagged offline status `"OFF"`. -/
theorem c4_probe_classification_amended :
    ∀ (d : TaskData) (useOcr : Bool) (out : ProcOutcome),
      d.probeType = "ffprobe" → out.commRaised = false →
      ((guiDetailedStatus d useOcr out = "ON" ↔ out.returncode = 0) ∧
       (out.returncode ≠ 0 → guiDetailedStatus d useOcr out = "OFF (Probe Error)")) ∧
      (∀ (rc : Int) (artifactOk : Bool) (env : OcrEnv),
        (cliDetailedStatus false false false rc artifactOk env = "ON" ↔ rc = 0) ∧
        (rc ≠ 0 → cliDetailedStatus false false false rc artifactOk env = "OFF")) := by
  intro d useOcr out h1 h2
  constructor
  · by_cases hrc : out.returncode = 0 <;>
      simp [guiDetailedStatus, h1, h2, hrc]
  · intro rc artifactOk env
    by_cases hrc : rc = 0 <;>
      simp [cliDetailedStatus, hrc]

/-- C4 witness: the amended statement at exit status 0 (GUI) and exit
status 3 (CLI). -/
theorem c4_probe_classification_witness :
    guiDetailedStatus sampleProbeTask false
      { returncode := 0, artifactOk := false, ocrEnv := OcrEnv.text "", commRaised := false }
      = "ON" ∧
    cliDetailedStatus false false false 3 false (OcrEnv.text "") = "OFF" := by
  have h := c4_probe_classification_amended sampleProbeTask false
    { returncode := 0, artifactOk := false, ocrEnv := OcrEnv.text "", commRaised := false }
    rfl rfl
  exact ⟨h.1.1.mpr rfl, (h.2 3 false (OcrEnv.text "")).2 (by decide)⟩

/-! ### C5 — routing of offline entries -/

/-- C5: a task retired through result classification with a definitively
offline status is appended exactly once to the uncheckable file when its
URL is over-long or carries an authentication-looking keyword, and is
never written to the journal; an offline task meeting neither condition
is written to neither file.  This holds in both realizations. -/
theorem c5_uncheckable_routing :
    ∀ (s : GuiSession) (d : TaskData) (useOcr : Bool) (out : ProcOutcome)
      (cs : CliSession) (rec : StreamRecord) (st ct : String),
      some d.checkId = s.currentCheckId →
      pyIn "ON" (guiDetailedStatus d useOcr out) = false →
      pyIn "ON" st = false →
      ((uncheckableCond d.streamInfo.url = true →
          (guiProcessResult s d useOcr out).uncheckable = s.uncheckable ++ [d.streamInfo] ∧
          (guiProcessResult s d useOcr out).journal = s.journal) ∧
       (uncheckableCond d.streamInfo.url = false →
          (guiProcessResult s d useOcr out).uncheckable = s.uncheckable ∧
          (guiProcessResult s d useOcr out).journal = s.journal)) ∧
      ((uncheckableCond rec.url = true →
          (handleCliResult cs rec st ct).uncheckable = cs.uncheckable ++ [rec] ∧
          (handleCliResult cs rec st ct).journal = cs.journal) ∧
       (uncheckableCond rec.url = false →
          (handleCliResult cs rec st ct).uncheckable = cs.uncheckable ∧
          (handleCliResult cs rec st ct).journal = cs.journal)) := by
  intro s d useOcr out cs rec st ct hid hoff hoffCli
  constructor
  · constructor <;> intro hc <;>
      simp [guiProcessResult, hid.symm, hoff, hc]
  · constructor <;> intro hc <;>
      simp [handleCliResult, hoffCli, hc]

/-- C5 witness: the routing at a concrete offline probe failure whose
URL contains the keyword `token`, in both realizations. -/
theorem c5_uncheckable_routing_witness :
    (guiProcessResult sampleGuiSession sampleProbeTask false sampleFailOutcome).uncheckable
      = sampleGuiSession.uncheckable ++ [sampleRecToken] ∧
    (guiProcessResult sampleGuiSession sampleProbeTask false sampleFailOutcome).journal
      = sampleGuiSession.journal ∧
    (handleCliResult sampleCliSession sampleRecToken "OFF (Timeout)" "video").uncheckable
      = sampleCliSession.uncheckable ++ [sampleRecToken] := by
  have h := c5_uncheckable_routing sampleGuiSession sampleProbeTask false sampleFailOutcome
    sampleCliSession sampleRecToken "OFF (Timeout)" "video" (by decide) (by decide) (by decide)
  exact ⟨(h.1.1 (by decide)).1, (h.1.1 (by decide)).2, (h.2.1 (by decide)).1⟩

/-! ### C6 — OCR screen analysis -/

/-- C6: the OCR analysis returns the OCR-error-screen offline status
exactly when the lower-cased recognized text contains a known error
keyword; recognized text without a keyword yields `"ON"`; a raising
extraction or recognition step degrades to `"ON (OCR Failed)"`; and the
offline status is never produced unless a keyword actually matched, so a
task whose probe succeeded is never marked offline merely because OCR
could not run. -/
theorem c6_ocr_classification :
    ∀ env : OcrEnv,
      (∀ raw, env = OcrEnv.text raw →
        performOcrCheck env =
          (if ocrKeywordHit raw then "OFF (OCR: Error Screen)" else "ON")) ∧
      ((env = OcrEnv.extractRaises ∨ env = OcrEnv.recogRaises) →
        performOcrCheck env = "ON (OCR Failed)") ∧
      (performOcrCheck env = "OFF (OCR: Error Screen)" →
        ∃ raw, env = OcrEnv.text raw ∧ ocrKeywordHit raw = true) := by
  intro env
  refine ⟨?_, ?_, ?_⟩
  · intro raw h
    subst h
    rfl
  · rintro (h | h) <;> subst h <;> rfl
  · intro h
    cases env with
    | extractRaises => exact absurd h (by decide)
    | imageMissing => exact absurd h (by decide)
    | recogRaises => exact absurd h (by decide)
    | text raw =>
      refine ⟨raw, rfl, ?_⟩
      by_cases hk : ocrKeywordHit raw
      · exact hk
      · rw [performOcrCheck, if_neg hk] at h
        exact absurd h (by decide)

/-- C6 witness: the classification at a recognized error screen, at
clean recognized text and at a raising extraction step. -/
theorem c6_ocr_classification_witness :
    performOcrCheck (OcrEnv.text "Login Required") = "OFF (OCR: Error Screen)" ∧
    performOcrCheck (OcrEnv.text "BBC One HD") = "ON" ∧
    performOcrCheck OcrEnv.extractRaises = "ON (OCR Failed)" := by
  have h1 := (c6_ocr_classification (OcrEnv.text "Login Required")).1 "Login Required" rfl
  have h2 := (c6_ocr_classification (OcrEnv.text "BBC One HD")).1 "BBC One HD" rfl
  have h3 := (c6_ocr_classification OcrEnv.extractRaises).2.1 (Or.inl rfl)
  refine ⟨?_, ?_, h3⟩
  · rw [h1, if_pos (by decide)]
  · rw [h2, if_neg (by decide)]

/-! ### C7 — empty staging file in recheck mode -/

/-- C7: a header-only staging file measures 12 bytes (3-byte BOM plus
the 9-byte header), below the 16-byte promotion threshold, so in recheck
mode the session removes both the pre-existing output file and the
staging file: neither remains afterwards, in either realization (the
promotion code of `AppGUI.stop_processing` and `AppCLI._finalize_check`
is identical). -/
theorem c7_recheck_empty_staging_cleanup :
    ∀ prevOutput : Option String,
      partFileSize [] = 12 ∧
      partFileSize [] ≤ 15 ∧
      promoteRecheck [] prevOutput = (none, none) := by
  intro prevOutput
  refine ⟨by decide, by decide, ?_⟩
  rw [promoteRecheck, if_neg (by decide)]

/-! ### C8 — stale classification callbacks -/

/-- C8: a classification callback stamped with a check id different
from the session's current id leaves every piece of session state
unchanged — counters, journal, uncheckable entries and the active set —
except that `_process_result` still removes the task's temporary
artifact; `_handle_worker_failure` and `_schedule_process` return with
no effect at all. -/
theorem c8_stale_callback_frame :
    ∀ (s : GuiSession) (d : TaskData) (useOcr : Bool) (out : ProcOutcome)
      (info : StreamRecord) (reason : String) (pid : Nat) (tempFile : Option String),
      some d.checkId ≠ s.currentCheckId →
      guiProcessResult s d useOcr out
        = { s with tempFiles := removeTempFile s.tempFiles d.tempFile } ∧
      guiHandleWorkerFailure s info reason d.checkId = s ∧
      guiScheduleProcess s info d.checkId pid tempFile = s := by
  intro s d useOcr out info reason pid tempFile h
  refine ⟨?_, ?_, ?_⟩
  · rw [guiProcessResult, if_pos h]
  · rw [guiHandleWorkerFailure, if_pos h]
  · rw [guiScheduleProcess.eq_def, if_pos h]

/-- C8 witness: the frame property at a concrete session with current
id 7 and a callback stamped with the stale id 3. -/
theorem c8_stale_callback_frame_witness :
    guiProcessResult sampleGuiSession sampleStaleTask false sampleFailOutcome
      = { sampleGuiSession with
            tempFiles := removeTempFile sampleGuiSession.tempFiles sampleStaleTask.tempFile } ∧
    guiHandleWorkerFailure sampleGuiSession sampleRec2 "(Timeout)" sampleStaleTask.checkId
      = sampleGuiSession ∧
    guiScheduleProcess sampleGuiSession sampleRec2 sampleStaleTask.checkId 42 none
      = sampleGuiSession := by
  exact c8_stale_callback_frame sampleGuiSession sampleStaleTask false sampleFailOutcome
    sampleRec2 "(Timeout)" 42 none (by decide)

/-! ### C10 — the fixed uncheckable path -/

/-- C10: both realizations open the uncheckable file at the fixed
relative path `uncheckable.m3u`, independent of the chosen output path,
in truncating write mode, and leave exactly the fresh header inside it —
so starting any new session erases whatever any previous session put
there, whatever its output file was. -/
theorem c10_uncheckable_fixed_path :
    ∀ (outputPath : String) (fs : FileSys),
      (guiStartOpens outputPath).2 = { path := "uncheckable.m3u", truncating := true } ∧
      (cliStartOpens outputPath).2 = { path := "uncheckable.m3u", truncating := true } ∧
      afterSessionStart fs (guiStartOpens outputPath) uncheckableFilePath
        = some m3uHeaderText ∧
      afterSessionStart fs (cliStartOpens outputPath) uncheckableFilePath
        = some m3uHeaderText := by
  intro outputPath fs
  refine ⟨rfl, rfl, ?_, ?_⟩ <;>
    simp [afterSessionStart, fsOpenWriteHeader, guiStartOpens, cliStartOpens]

/-! ### C9 — helper lemmas about the matcher -/

/-- Case-insensitive comparison of a character with itself holds. -/
theorem litIfSelf (ci : Bool) (c : Char) : (if ci then ciEq c c else c == c) = true := by
  cases ci <;> simp [ciEq]

/-- A literal matches its own image, leaving the remainder. -/
theorem matchLit_self (ci : Bool) (p s : List Char) : matchLit ci p (p ++ s) = some s := by
  induction p with
  | nil => rfl
  | cons c cs ih => rw [List.cons_append, matchLit, if_pos (litIfSelf ci c), ih]

/-- A literal fails when its first character does not compare. -/
theorem matchLit_head_ne (ci : Bool) (p : Char) (ps : List Char) (c : Char) (cs : List Char)
    (h : (if ci then ciEq p c else p == c) = false) : matchLit ci (p :: ps) (c :: cs) = none := by
  rw [matchLit, if_neg]
  simp [h]

/-- Matching one identical leading character steps both lists. -/
theorem matchLit_cons_self (ci : Bool) (c : Char) (ps cs : List Char) :
    matchLit ci (c :: ps) (c :: cs) = matchLit ci ps cs := by
  rw [matchLit, if_pos (litIfSelf ci c)]

/-- The first-occurrence split over text free of the split character. -/
theorem splitAtChar_exact (c : Char) (a b : List Char) (h : ∀ x ∈ a, (x == c) = false) :
    splitAtChar c (a ++ c :: b) = some (a, b) := by
  induction a with
  | nil => simp [splitAtChar]
  | cons x xs ih =>
    rw [List.cons_append, splitAtChar, if_neg (by simp [h x (List.mem_cons_self x xs)])]
    rw [ih (fun y hy => h y (List.mem_cons_of_mem x hy))]
    rfl

/-- `takeWhile` collects an all-true block up to the first failure. -/
theorem takeWhile_append_block (p : Char → Bool) (xs : List Char) (y : Char) (ys : List Char)
    (hall : ∀ x ∈ xs, p x = true) (hy : p y = false) :
    (xs ++ y :: ys).takeWhile p = xs := by
  induction xs with
  | nil => simp [List.takeWhile_cons, hy]
  | cons x xt ih =>
    rw [List.cons_append, List.takeWhile_cons, if_pos (hall x (List.mem_cons_self x xt))]
    rw [ih (fun z hz => hall z (List.mem_cons_of_mem x hz))]


/-- The URL fragment at a lower-case `http://` URL followed by a
newline: the capture is the whole URL and the newline starts the rest. -/
theorem matchUrl_http (ci : Bool) (tail rest : List Char) (hne : tail ≠ [])
    (hns : ∀ c ∈ tail, isSpaceChar c = false) :
    matchUrl ci (( "http://".data) ++ tail ++ '\n' :: rest)
      = some (( "http://".data) ++ tail, '\n' :: rest) := by
  have e7 : ( "http://".data) = ['h', 't', 't', 'p', ':', '/', '/'] := rfl
  have e8 : ( "https://".data) = ['h', 't', 't', 'p', 's', ':', '/', '/'] := rfl
  have h8 : List.take 8 (['h', 't', 't', 'p', 's', ':', '/', '/'] : List Char)
      = ['h', 't', 't', 'p', 's', ':', '/', '/'] := rfl
  have hmiss : matchLit ci (['h', 't', 't', 'p', 's', ':', '/', '/'] : List Char)
      (['h', 't', 't', 'p', ':', '/', '/'] ++ (tail ++ '\n' :: rest)) = none := by
    show matchLit ci ('h' :: 't' :: 't' :: 'p' :: 's' :: (':' :: '/' :: '/' :: []))
      ('h' :: 't' :: 't' :: 'p' :: (':' :: '/' :: '/' :: (tail ++ '\n' :: rest))) = none
    rw [matchLit_cons_self, matchLit_cons_self, matchLit_cons_self, matchLit_cons_self]
    exact matchLit_head_ne ci 's' _ ':' _ (by cases ci <;> decide)
  have hhit : matchLit ci (['h', 't', 't', 'p', ':', '/', '/'] : List Char)
      (['h', 't', 't', 'p', ':', '/', '/'] ++ (tail ++ '\n' :: rest))
      = some (tail ++ '\n' :: rest) := matchLit_self ci _ _
  have htake7 : List.take 7 ((['h', 't', 't', 'p', ':', '/', '/'] : List Char) ++ (tail ++ '\n' :: rest))
      = ['h', 't', 't', 'p', ':', '/', '/'] := by
    simp
  have hbody : (tail ++ '\n' :: rest).takeWhile (fun c => !(isSpaceChar c)) = tail :=
    takeWhile_append_block _ tail '\n' rest (by intro x hx; simp [hns x hx]) (by decide)
  have hdrop : (tail ++ '\n' :: rest).drop tail.length = '\n' :: rest :=
    List.drop_left tail ('\n' :: rest)
  have hemp : tail.isEmpty = false := by
    cases tail with
    | nil => exact absurd rfl hne
    | cons a l => rfl
  rw [List.append_assoc, e7]
  simp only [matchUrl, e7, e8, h8, hmiss, hhit, Option.map_none', Option.map_some',
    htake7, hbody, hdrop, hemp]
  rfl

/-- The URL fragment at a lower-case `https://` URL followed by a
newline. -/
theorem matchUrl_https (ci : Bool) (tail rest : List Char) (hne : tail ≠ [])
    (hns : ∀ c ∈ tail, isSpaceChar c = false) :
    matchUrl ci (( "https://".data) ++ tail ++ '\n' :: rest)
      = some (( "https://".data) ++ tail, '\n' :: rest) := by
  have e8 : ( "https://".data) = ['h', 't', 't', 'p', 's', ':', '/', '/'] := rfl
  have h8 : List.take 8 (['h', 't', 't', 'p', 's', ':', '/', '/'] : List Char)
      = ['h', 't', 't', 'p', 's', ':', '/', '/'] := rfl
  have hhit : matchLit ci (['h', 't', 't', 'p', 's', ':', '/', '/'] : List Char)
      (['h', 't', 't', 'p', 's', ':', '/', '/'] ++ (tail ++ '\n' :: rest))
      = some (tail ++ '\n' :: rest) := matchLit_self ci _ _
  have htake8 : List.take 8 ((['h', 't', 't', 'p', 's', ':', '/', '/'] : List Char) ++ (tail ++ '\n' :: rest))
      = ['h', 't', 't', 'p', 's', ':', '/', '/'] := by
    simp
  have hbody : (tail ++ '\n' :: rest).takeWhile (fun c => !(isSpaceChar c)) = tail :=
    takeWhile_append_block _ tail '\n' rest (by intro x hx; simp [hns x hx]) (by decide)
  have hdrop : (tail ++ '\n' :: rest).drop tail.length = '\n' :: rest :=
    List.drop_left tail ('\n' :: rest)
  have hemp : tail.isEmpty = false := by
    cases tail with
    | nil => exact absurd rfl hne
    | cons a l => rfl
  rw [List.append_assoc, e8]
  simp only [matchUrl, e8, h8, hhit, Option.map_none', Option.map_some',
    htake8, hbody, hdrop, hemp]
  rfl

/-- When no extension line starts here, the star group is empty and the
URL is matched directly. -/
theorem extStarUrl_skip (ci : Bool) (fuel : Nat) (s : List Char)
    (hne : matchLit ci ( "#EXT".data) s = none) :
    extStarUrl ci (fuel + 1) s = matchUrl ci s := by
  simp only [extStarUrl, hne]

/-- Pattern 1 after `group-title="` recovers the written fields of a
well-formed entry. -/
theorem p1Cont_entry (g t u rest : List Char)
    (hg : ∀ x ∈ g, (x == '"') = false)
    (ht : ∀ x ∈ t, (x == '\n') = false) (htne : t ≠ [])
    (hu : UrlShape u) :
    p1Cont (g ++ '"' :: ',' :: (t ++ '\n' :: (u ++ '\n' :: '\n' :: rest)))
      = some (g, t, u, '\n' :: '\n' :: rest) := by
  have hsplit1 : splitAtChar '"' (g ++ '"' :: ',' :: (t ++ '\n' :: (u ++ '\n' :: '\n' :: rest)))
      = some (g, ',' :: (t ++ '\n' :: (u ++ '\n' :: '\n' :: rest))) :=
    splitAtChar_exact '"' g _ hg
  have hsplit2 : splitAtChar ',' (',' :: (t ++ '\n' :: (u ++ '\n' :: '\n' :: rest)))
      = some ([], t ++ '\n' :: (u ++ '\n' :: '\n' :: rest)) := by
    simp [splitAtChar]
  have hsplit3 : splitAtChar '\n' (t ++ '\n' :: (u ++ '\n' :: '\n' :: rest))
      = some (t, u ++ '\n' :: '\n' :: rest) :=
    splitAtChar_exact '\n' t _ ht
  have htemp : t.isEmpty = false := by
    cases t with
    | nil => exact absurd rfl htne
    | cons a l => rfl
  have hhead : matchLit true ( "#EXT".data) (u ++ '\n' :: '\n' :: rest) = none := by
    rcases hu.1 with ⟨tl, hsch, -⟩ | ⟨tl, hsch, -⟩ <;>
      · rw [hsch, List.append_assoc]
        exact matchLit_head_ne true '#' _ 'h' _ (by decide)
  have hurl : matchUrl true (u ++ '\n' :: '\n' :: rest) = some (u, '\n' :: '\n' :: rest) := by
    rcases hu.1 with ⟨tl, hsch, htl⟩ | ⟨tl, hsch, htl⟩
    · rw [hsch, List.append_assoc]
      exact matchUrl_http true tl ('\n' :: rest) htl
        (fun c hc => hu.2 c (by rw [hsch]; exact List.mem_append_right _ hc))
    · rw [hsch, List.append_assoc]
      exact matchUrl_https true tl ('\n' :: rest) htl
        (fun c hc => hu.2 c (by rw [hsch]; exact List.mem_append_right _ hc))
  simp only [p1Cont, hsplit1, hsplit2, hsplit3, htemp, Bool.false_eq_true, if_false]
  rw [extStarUrl_skip true _ _ hhead, hurl]

/-- One failed position of the lazy scan steps to the next character. -/
theorem lazyGT_step_fail (c : Char) (cs : List Char)
    (h : matchLit true ( "group-title=\"".data) (c :: cs) = none)
    (hc : (c == '\n') = false) :
    lazyGT (c :: cs) = lazyGT cs := by
  simp only [lazyGT, h, hc, Bool.false_eq_true, if_false]

/-- A position where the literal and its continuation succeed yields the
continuation's result. -/
theorem lazyGT_step_hit (c : Char) (cs r : List Char)
    (res : List Char × List Char × List Char × List Char)
    (h : matchLit true ( "group-title=\"".data) (c :: cs) = some r)
    (hres : p1Cont r = some res) :
    lazyGT (c :: cs) = some res := by
  simp only [lazyGT, h, hres]

/-- The anchored pattern-1 match at the head of a well-formed written
entry block recovers the written group, title and URL and stops right
after the URL. -/
theorem tryP1At_entry (g t u rest : List Char)
    (hg : ∀ x ∈ g, (x == '"') = false)
    (ht : ∀ x ∈ t, (x == '\n') = false) (htne : t ≠ [])
    (hu : UrlShape u) :
    tryP1At (( "#EXTINF:-1".data) ++ ' ' :: (( "group-title=\"".data)
        ++ (g ++ '"' :: ',' :: (t ++ '\n' :: (u ++ '\n' :: '\n' :: rest)))))
      = some (g, t, u, '\n' :: '\n' :: rest) := by
  have hanchor : matchLit true ( "#EXTINF:-1".data)
      (( "#EXTINF:-1".data) ++ ' ' :: (( "group-title=\"".data)
        ++ (g ++ '"' :: ',' :: (t ++ '\n' :: (u ++ '\n' :: '\n' :: rest)))))
      = some (' ' :: (( "group-title=\"".data)
        ++ (g ++ '"' :: ',' :: (t ++ '\n' :: (u ++ '\n' :: '\n' :: rest))))) :=
    matchLit_self true _ _
  have hgtfail : matchLit true ( "group-title=\"".data)
      (' ' :: (( "group-title=\"".data)
        ++ (g ++ '"' :: ',' :: (t ++ '\n' :: (u ++ '\n' :: '\n' :: rest))))) = none := by
    have e : ( "group-title=\"".data)
        = 'g' :: ( "roup-title=\"".data) := rfl
    rw [e]
    exact matchLit_head_ne true 'g' _ ' ' _ (by decide)
  have hgthit : matchLit true ( "group-title=\"".data)
      ('g' :: (( "roup-title=\"".data)
        ++ (g ++ '"' :: ',' :: (t ++ '\n' :: (u ++ '\n' :: '\n' :: rest)))))
      = some (g ++ '"' :: ',' :: (t ++ '\n' :: (u ++ '\n' :: '\n' :: rest))) := by
    have := matchLit_self true ( "group-title=\"".data)
      (g ++ '"' :: ',' :: (t ++ '\n' :: (u ++ '\n' :: '\n' :: rest)))
    exact this
  simp only [tryP1At, hanchor]
  rw [lazyGT_step_fail _ _ hgtfail (by decide)]
  have e2 : ( "group-title=\"".data)
      ++ (g ++ '"' :: ',' :: (t ++ '\n' :: (u ++ '\n' :: '\n' :: rest)))
      = 'g' :: (( "roup-title=\"".data)
      ++ (g ++ '"' :: ',' :: (t ++ '\n' :: (u ++ '\n' :: '\n' :: rest)))) := rfl
  rw [e2]
  exact lazyGT_step_hit _ _ _ _ hgthit (p1Cont_entry g t u rest hg ht htne hu)

/-- The scan of pattern 1 over an empty input finds nothing. -/
theorem findAllP1_nil (f : Nat) : findAllP1 f [] = [] := by
  cases f <;> rfl

/-- A failed position advances the scan by one character. -/
theorem findAllP1_advance (f : Nat) (c : Char) (cs : List Char)
    (h : tryP1At (c :: cs) = none) :
    findAllP1 (f + 1) (c :: cs) = findAllP1 f cs := by
  simp only [findAllP1, h]

/-- A successful position emits its captures and resumes after the
match. -/
theorem findAllP1_hit (f : Nat) (c : Char) (cs : List Char)
    (g t u rest : List Char) (h : tryP1At (c :: cs) = some (g, t, u, rest)) :
    findAllP1 (f + 1) (c :: cs) = (g, t, u) :: findAllP1 f rest := by
  simp only [findAllP1, h]

/-- Pattern 1 cannot start at a character that is not `#`. -/
theorem tryP1At_head_ne (c : Char) (cs : List Char) (h : ciEq '#' c = false) :
    tryP1At (c :: cs) = none := by
  have e : ( "#EXTINF:-1".data) = '#' :: ( "EXTINF:-1".data) := rfl
  rw [tryP1At, e, matchLit_head_ne true '#' _ c cs (by simp [h])]

/-- Pattern 1 cannot start at the header's own `#EXTM3U` line. -/
theorem tryP1At_EXTM (xs : List Char) :
    tryP1At ('#' :: 'E' :: 'X' :: 'T' :: 'M' :: xs) = none := by
  have e : ( "#EXTINF:-1".data)
      = '#' :: 'E' :: 'X' :: 'T' :: 'I' :: ( "NF:-1".data) := rfl
  rw [tryP1At, e, matchLit_cons_self, matchLit_cons_self, matchLit_cons_self,
    matchLit_cons_self, matchLit_head_ne true 'I' _ 'M' xs (by decide)]

/-- Scanning the written header just skips its nine characters. -/
theorem findAllP1_header (f : Nat) (body : List Char) (h : 9 + body.length ≤ f) :
    findAllP1 f (( "#EXTM3U\n\n".data) ++ body) = findAllP1 (f - 9) body := by
  obtain ⟨f0, rfl⟩ : ∃ f0, f = f0 + 9 := ⟨f - 9, by omega⟩
  have e : ( "#EXTM3U\n\n".data)
      = '#' :: 'E' :: 'X' :: 'T' :: 'M' :: '3' :: 'U' :: '\n' :: '\n' :: [] := rfl
  rw [e]
  simp only [List.cons_append, List.nil_append]
  show findAllP1 ((f0 + 8) + 1) _ = _
  rw [findAllP1_advance _ _ _ (tryP1At_EXTM _)]
  show findAllP1 ((f0 + 7) + 1) _ = _
  rw [findAllP1_advance _ _ _ (tryP1At_head_ne 'E' _ (by decide))]
  show findAllP1 ((f0 + 6) + 1) _ = _
  rw [findAllP1_advance _ _ _ (tryP1At_head_ne 'X' _ (by decide))]
  show findAllP1 ((f0 + 5) + 1) _ = _
  rw [findAllP1_advance _ _ _ (tryP1At_head_ne 'T' _ (by decide))]
  show findAllP1 ((f0 + 4) + 1) _ = _
  rw [findAllP1_advance _ _ _ (tryP1At_head_ne 'M' _ (by decide))]
  show findAllP1 ((f0 + 3) + 1) _ = _
  rw [findAllP1_advance _ _ _ (tryP1At_head_ne '3' _ (by decide))]
  show findAllP1 ((f0 + 2) + 1) _ = _
  rw [findAllP1_advance _ _ _ (tryP1At_head_ne 'U' _ (by decide))]
  show findAllP1 ((f0 + 1) + 1) _ = _
  rw [findAllP1_advance _ _ _ (tryP1At_head_ne '\n' _ (by decide))]
  show findAllP1 (f0 + 1) _ = _
  rw [findAllP1_advance _ _ _ (tryP1At_head_ne '\n' _ (by decide))]
  congr 1

/-- A successful head test is an append decomposition. -/
theorem startsWithChars_eq_append (p : List Char) :
    ∀ s : List Char, startsWithChars p s = true → ∃ tl, s = p ++ tl := by
  induction p with
  | nil => intro s _; exact ⟨s, rfl⟩
  | cons a as ih =>
    intro s hs
    cases s with
    | nil => simp [startsWithChars] at hs
    | cons b bs =>
      rw [startsWithChars, Bool.and_eq_true] at hs
      obtain ⟨tl, htl⟩ := ih bs hs.2
      exact ⟨tl, by rw [htl, List.cons_append, (beq_iff_eq.mp hs.1)]⟩

/-- Unpacking of `GoodRecord` into the facts the matcher lemmas use. -/
theorem goodRecord_parts (r : StreamRecord) (h : GoodRecord r) :
    (∀ x ∈ r.group.data, (x == '"') = false) ∧
    (∀ x ∈ r.title.data, (x == '\n') = false) ∧
    r.title.data ≠ [] ∧
    UrlShape r.url.data := by
  rw [GoodRecord, goodRecordB] at h
  simp only [Bool.and_eq_true, Bool.or_eq_true, List.all_eq_true, Bool.not_eq_true',
    List.isEmpty_iff, decide_eq_true_eq] at h
  obtain ⟨⟨⟨⟨hscheme, hnospace⟩, htne⟩, htnl⟩, hgq⟩ := h
  have htne' : r.title.data ≠ [] := by
    intro hnil
    rw [hnil] at htne
    simp at htne
  refine ⟨hgq, htnl, htne', ?_, hnospace⟩
  rcases hscheme with ⟨hsw, hlen⟩ | ⟨hsw, hlen⟩
  · obtain ⟨tl, htl⟩ := startsWithChars_eq_append _ _ hsw
    refine Or.inl ⟨tl, htl, ?_⟩
    intro hnil
    rw [htl, hnil] at hlen
    simp at hlen
  · obtain ⟨tl, htl⟩ := startsWithChars_eq_append _ _ hsw
    refine Or.inr ⟨tl, htl, ?_⟩
    intro hnil
    rw [htl, hnil] at hlen
    simp at hlen

/-- The character-level shape of one written entry block followed by
arbitrary text. -/
theorem entryData_shape (r : StreamRecord) (X : List Char) :
    (writeM3uEntryText r).data ++ X
      = ( "#EXTINF:-1".data) ++ ' ' :: (( "group-title=\"".data)
        ++ (r.group.data ++ '"' :: ',' :: (r.title.data ++ '\n'
          :: (r.url.data ++ '\n' :: '\n' :: X)))) := by
  rw [writeM3uEntryText]
  simp only [String.data_append]
  simp [List.append_assoc, List.cons_append, List.nil_append]

/-- `findAllP1_hit` stated without a syntactic head character. -/
theorem findAllP1_hit' (f : Nat) (s : List Char) (g t u rest : List Char)
    (h : tryP1At s = some (g, t, u, rest)) :
    findAllP1 (f + 1) s = (g, t, u) :: findAllP1 f rest := by
  cases s with
  | nil => exact absurd h (by rw [show tryP1At [] = none from rfl]; simp)
  | cons c cs => exact findAllP1_hit f c cs g t u rest h

/-- Scanning the concatenated entry blocks of well-formed records
recovers exactly their field triples, in order. -/
theorem findAllP1_entries (rs : List StreamRecord) (hrs : ∀ r ∈ rs, GoodRecord r) :
    ∀ f, (entriesText rs).data.length ≤ f →
    findAllP1 f (entriesText rs).data
      = rs.map (fun r => (r.group.data, r.title.data, r.url.data)) := by
  induction rs with
  | nil => intro f _; exact findAllP1_nil f
  | cons r rs ih =>
    intro f hf
    have hparts := goodRecord_parts r (hrs r (List.mem_cons_self r rs))
    have hdata : (entriesText (r :: rs)).data
        = (writeM3uEntryText r).data ++ (entriesText rs).data := by
      simp [entriesText, String.data_append]
    have hshape := entryData_shape r (entriesText rs).data
    have hElen := congrArg List.length (entryData_shape r ([] : List Char))
    simp only [List.length_append, List.length_cons, List.length_nil] at hElen
    have hf' : (writeM3uEntryText r).data.length + (entriesText rs).data.length ≤ f := by
      rw [hdata, List.length_append] at hf
      exact hf
    have hEbound : 3 ≤ (writeM3uEntryText r).data.length := by
      have h10 : ( "#EXTINF:-1".data).length = 10 := rfl
      omega
    obtain ⟨f3, rfl⟩ : ∃ f3, f = f3 + 3 := ⟨f - 3, by omega⟩
    have hhit := tryP1At_entry r.group.data r.title.data r.url.data (entriesText rs).data
      hparts.1 hparts.2.1 hparts.2.2.1 hparts.2.2.2
    rw [hdata, hshape]
    show findAllP1 ((f3 + 2) + 1) _ = _
    rw [findAllP1_hit' _ _ _ _ _ _ hhit]
    show _ :: findAllP1 ((f3 + 1) + 1) _ = _
    rw [findAllP1_advance _ _ _ (tryP1At_head_ne '\n' _ (by decide))]
    show _ :: findAllP1 (f3 + 1) _ = _
    rw [findAllP1_advance _ _ _ (tryP1At_head_ne '\n' _ (by decide))]
    rw [ih (fun x hx => hrs x (List.mem_cons_of_mem r hx)) f3 (by omega)]
    rfl

/-- `dropWhile` is the identity on a list whose elements all fail the
test. -/
theorem dropWhile_all_false (p : Char → Bool) (l : List Char)
    (h : ∀ c ∈ l, p c = false) : l.dropWhile p = l := by
  cases l with
  | nil => rfl
  | cons c cs =>
    rw [List.dropWhile_cons, if_neg (by simp [h c (List.mem_cons_self c cs)])]

/-- Stripping text free of whitespace is the identity. -/
theorem stripChars_eq_self (l : List Char) (h : ∀ c ∈ l, isSpaceChar c = false) :
    stripChars l = l := by
  rw [stripChars, dropWhile_all_false _ _ h, dropWhile_all_false, List.reverse_reverse]
  intro c hc
  exact h c (List.mem_reverse.mp hc)

/-- `str.strip()` is the identity on a whitespace-free string. -/
theorem stripStr_eq_self (s : String) (h : ∀ c ∈ s.data, isSpaceChar c = false) :
    stripStr s = s := by
  rw [stripStr, stripChars_eq_self _ h]

/-- The parse of the engine's own written playlist recovers the URL
list of the written records. -/
theorem parse_writePlaylist_urls (rs : List StreamRecord) (hrs : ∀ r ∈ rs, GoodRecord r) :
    (parse_m3u (writePlaylist rs)).map StreamRecord.url = rs.map StreamRecord.url := by
  cases rs with
  | nil => decide
  | cons r rs' =>
    have hdata : (writePlaylist (r :: rs')).data
        = ( "#EXTM3U\n\n".data) ++ (entriesText (r :: rs')).data := by
      simp [writePlaylist, m3uHeaderText, String.data_append]
    have hlen : (writePlaylist (r :: rs')).data.length
        = 9 + (entriesText (r :: rs')).data.length := by
      rw [hdata, List.length_append]
      rfl
    have hskip : findAllP1 (writePlaylist (r :: rs')).data.length (writePlaylist (r :: rs')).data
        = findAllP1 ((entriesText (r :: rs')).data.length) (entriesText (r :: rs')).data := by
      rw [hdata, List.length_append]
      rw [show ( "#EXTM3U\n\n".data).length = 9 from rfl]
      rw [findAllP1_header _ _ (le_refl _)]
      congr 1
      omega
    have hfound := findAllP1_entries (r :: rs') hrs
      ((entriesText (r :: rs')).data.length) (le_refl _)
    simp only [parse_m3u, hskip, hfound]
    rw [if_neg (by simp)]
    rw [List.map_map, List.map_map]
    apply List.map_congr_left
    intro x hx
    show stripStr (String.mk x.url.data) = x.url
    have hurl := (goodRecord_parts x (hrs x hx)).2.2.2.2
    exact stripStr_eq_self x.url hurl

/-! ### C9 — writer/reader round trip -/

/-- C9 counterexample: the round trip fails for an arbitrary record
list — a record whose URL lacks an `http`/`https` scheme is written by
`write_m3u_entry` but silently dropped by `parse_m3u`, whose URL
fragment requires the scheme; the input URL set is not reproduced. -/
theorem c9_roundtrip_counterexample :
    [sampleRecNoScheme].map StreamRecord.url = [ "x"] ∧
    (parse_m3u (writePlaylist [sampleRecNoScheme])).map StreamRecord.url = [] ∧
    decide (( "x" : String) ∈ (parse_m3u (writePlaylist [sampleRecNoScheme])).map StreamRecord.url)
      = false := by
  decide

/-- C9 amended: for every list of records whose fields are well-formed
for the written format — URL with a lower-case `http`/`https` scheme,
non-empty past the scheme and whitespace-free; non-empty title without
newlines; group without double quotes — parsing the engine's own written
output reproduces exactly the input URL list, and hence the same set of
URLs. -/
theorem c9_roundtrip_amended :
    ∀ rs : List StreamRecord, (∀ r ∈ rs, GoodRecord r) →
      (parse_m3u (writePlaylist rs)).map StreamRecord.url = rs.map StreamRecord.url ∧
      ∀ u : String, (u ∈ (parse_m3u (writePlaylist rs)).map StreamRecord.url
        ↔ u ∈ rs.map StreamRecord.url) := by
  intro rs hrs
  have hmain := parse_writePlaylist_urls rs hrs
  exact ⟨hmain, fun u => by rw [hmain]⟩

/-- C9 witness: the amended round trip at two concrete well-formed
records. -/
theorem c9_roundtrip_witness :
    GoodRecord sampleRec1 ∧ GoodRecord sampleRec2 ∧
    (parse_m3u (writePlaylist [sampleRec1, sampleRec2])).map StreamRecord.url
      = [ "http://example.com/a", "https://ex.org/b?x=1"] := by
  refine ⟨(by decide : goodRecordB sampleRec1 = true),
    (by decide : goodRecordB sampleRec2 = true), ?_⟩
  have h := (c9_roundtrip_amended [sampleRec1, sampleRec2]
    (by
      intro r hr
      fin_cases hr
      · exact (by decide : goodRecordB sampleRec1 = true)
      · exact (by decide : goodRecordB sampleRec2 = true))).1
  rw [h]
  rfl
